import Mathlib

/-
  Verification of the ITI sequence generators and cleanup routine of
  `psychopy_tools` (modules `stim_gen.py` and `presentation.py`).

  The Python code is shallowly embedded:
  * Python numbers are modelled as `PyNum` (a rational value together with a
    flag recording whether the Python object is an `int`, so that
    `isinstance(x, int)` checks are expressible; a float of integral value has
    `isInt = false`).
  * Optional arguments are `Option PyNum`; Python truthiness of a number is
    `val ≠ 0`, of `None` it is false.
  * `assert` failures become `PyErr.assertionError`; Python-3 `TypeError`
    (e.g. comparing a number with `None`, or `None + 1`) becomes
    `PyErr.typeError`.
  * The numpy random draws are abstracted by an oracle `rawDraw : ℕ → List ℚ`
    giving the raw sample of each loop iteration; distribution-support facts
    (geometric draws are integers ≥ 1, exponential draws are ≥ 0, uniform
    draws lie in the sampling interval) are stated as hypotheses where needed.
  * Reals are modelled as ℚ.  `np.allclose(a, b, atol=t)` uses the numpy
    default relative tolerance `rtol = 1e-5`: it holds iff
    `|a - b| ≤ t + (1/100000) * |b|`.
-/

namespace PsychopyTools

/-- A Python number: its rational value plus whether it is an `int`
(`isinstance(x, int)`); a Python float with integral value has
`isInt = false`. -/
structure PyNum where
  isInt : Bool
  val : ℚ
deriving DecidableEq, Repr

/-- Python exceptions relevant to the embedded code: `AssertionError`
(raised by `assert`, the spec calls it `InvalidParameter`) and `TypeError`
(Python 3 comparison/arithmetic with `None`).  Messages are elided. -/
inductive PyErr where
  | assertionError
  | typeError
deriving DecidableEq, Repr

/-- Python truthiness of an optional number: `None` is falsy, a number is
truthy iff nonzero. -/
def pyTruthy : Option PyNum → Bool
  | none => false
  | some n => decide (n.val ≠ 0)

/-- Value of an optional number (only meaningful when present). -/
def pyVal : Option PyNum → ℚ
  | none => 0
  | some n => n.val

/-- The check `isinstance(x, int)` on an optional number; `none` returns `true`
because the code only checks it on present values. -/
def pyIsInt : Option PyNum → Bool
  | none => true
  | some n => n.isInt

/-- The test `np.allclose(a, b, atol)` with the numpy default `rtol = 1e-5`:
`|a - b| <= atol + rtol * |b|`. -/
def allclose (a b atol : ℚ) : Bool :=
  decide (|a - b| ≤ atol + (1 / 100000) * |b|)

/-- The mean `seq.mean()` of a numpy array modelled as a list (only used on
non-empty sequences). -/
def seqMean (l : List ℚ) : ℚ := l.sum / l.length

/-- The maximum `seq.max()` of a numpy array modelled as a list (only meaningful on
non-empty sequences). -/
def seqMax : List ℚ → ℚ
  | [] => 0
  | x :: xs => xs.foldl max x

/-- The effective maximum bound of `random_jitter` after argument
normalisation: `iti_max` itself when given; `np.inf` when `discrete` and
`iti_max is None` (line 43 of `stim_gen.py`); still `None` when
`not discrete` and `iti_max is None` (the `else: iti_max = np.inf` branch
is nested under `if discrete:`). -/
inductive MaxBound where
  | noneB
  | infB
  | numB (q : ℚ)
deriving DecidableEq, Repr

/-- Computes the effective `iti_max` of `random_jitter` (see `MaxBound`). -/
def jitterBound (discrete : Bool) (iti_max : Option PyNum) : MaxBound :=
  match iti_max with
  | some m => .numB m.val
  | none => if discrete then .infB else .noneB

/-- The acceptance test of `random_jitter`, line 69 of `stim_gen.py`:
`np.allclose(seq_mean, desired_mean, atol=tolerance) and (seq.max() <= iti_max)`.
Python `and` short-circuits, so the max comparison is only evaluated when
`allclose` holds; comparing against `None` (continuous call with no
`iti_max`) raises `TypeError`, and `np.inf` compares greater than
everything. -/
def acceptJitter (dm tol : ℚ) (bound : MaxBound) (seq : List ℚ) : Except PyErr Bool :=
  if allclose (seqMean seq) dm tol then
    match bound with
    | .noneB => .error .typeError
    | .infB => .ok true
    | .numB m => .ok (decide (seqMax seq ≤ m))
  else
    .ok false

/-- The shared retry loop of both generators (`while not converged`, lines
50–74 and 142–159 of `stim_gen.py`).  `fuel` is `nsim - i`; iteration `i`
draws candidate `draw i` and tests it; on rejection with `i = nsim`
(`fuel = 0`) the loop breaks, returning the final rejected candidate with
`converged = false`; otherwise `i` is incremented and a brand-new candidate
is drawn.  Returns `(seq, converged, i)`. -/
def searchLoop (draw : ℕ → List ℚ) (accept : List ℚ → Except PyErr Bool) :
    ℕ → ℕ → Except PyErr (List ℚ × Bool × ℕ)
  | 0, i =>
    match accept (draw i) with
    | .error e => .error e
    | .ok b => .ok (draw i, b, i)
  | fuel + 1, i =>
    match accept (draw i) with
    | .error e => .error e
    | .ok true => .ok (draw i, true, i)
    | .ok false => searchLoop draw accept fuel (i + 1)

/-- The function `random_jitter` (lines 9–86 of `stim_gen.py`), with plotting and
printing elided.  The raw geometric/exponential draws of iteration `k` are
`rawDraw k` (the distribution parameter `adjusted_mean =
desired_mean - (iti_min - 1)` only affects the distribution, which the
oracle abstracts); line 65 then shifts every draw by `iti_min - 1`.
Returns the final `(seq, converged, i)` or the raised exception. -/
def random_jitter (num_trials desired_mean iti_min : PyNum) (iti_max : Option PyNum)
    (discrete : Bool) (tolerance : ℚ) (nsim : ℕ) (rawDraw : ℕ → List ℚ) :
    Except PyErr (List ℚ × Bool × ℕ) :=
  if !num_trials.isInt then .error .assertionError
  else if !(decide (desired_mean.val > iti_min.val)) then .error .assertionError
  else if discrete && !iti_min.isInt then .error .assertionError
  else if discrete && !(pyIsInt iti_max) then .error .assertionError
  else
    searchLoop (fun k => (rawDraw k).map (fun x => x + (iti_min.val - 1)))
      (acceptJitter desired_mean.val tolerance (jitterBound discrete iti_max)) nsim 0

/-- The two-of-three parameter derivation of `random_uniform_jitter`
(lines 119–127 of `stim_gen.py`).  Branch guards use Python truthiness
(`if desired_mean and iti_min:` …), so a supplied `0` counts as absent.
Derived values follow Python arithmetic typing: `2 * mean - x` is an `int`
iff both operands are, while `.5 * (min + max)` is always a float. -/
def uniformDerive (dm mn mx : Option PyNum) :
    Except PyErr (Option PyNum × Option PyNum × Option PyNum) :=
  if pyTruthy dm && pyTruthy mn then
    match mx with
    | some _ => .error .assertionError
    | none => .ok (dm, mn, some ⟨pyIsInt dm && pyIsInt mn, 2 * pyVal dm - pyVal mn⟩)
  else if pyTruthy dm && pyTruthy mx then
    match mn with
    | some _ => .error .assertionError
    | none => .ok (dm, some ⟨pyIsInt dm && pyIsInt mx, 2 * pyVal dm - pyVal mx⟩, mx)
  else if pyTruthy mn && pyTruthy mx then
    match dm with
    | some _ => .error .assertionError
    | none => .ok (some ⟨false, (pyVal mn + pyVal mx) / 2⟩, mn, mx)
  else
    .ok (dm, mn, mx)

/-- Python-3 `a > b` on optional numbers: comparing with `None` raises
`TypeError`. -/
def pyGT : Option PyNum → Option PyNum → Except PyErr Bool
  | some a, some b => .ok (decide (a.val > b.val))
  | _, _ => .error .typeError

/-- Exception propagation (sequencing of Python statements that may
raise). -/
def pyBind : Except PyErr α → (α → Except PyErr β) → Except PyErr β
  | .error e, _ => .error e
  | .ok a, f => f a

/-- The acceptance test of `random_uniform_jitter` (line 154 of
`stim_gen.py`): only the mean is checked, bounds hold by construction of
the draw. -/
def acceptUniform (dm tol : ℚ) (seq : List ℚ) : Except PyErr Bool :=
  .ok (allclose (seqMean seq) dm tol)

/-- The function `random_uniform_jitter` (lines 88–168 of `stim_gen.py`), with plotting
and printing elided.  After derivation, sampling calls
`np.random.randint(iti_min, iti_max+1)` (discrete) or
`np.random.uniform(iti_min, iti_max+1e-12)` (continuous); if either bound
is still `None` that arithmetic raises `TypeError`.  The uniform draws of
iteration `k` are `rawDraw k`. -/
def random_uniform_jitter (num_trials : PyNum) (dm0 mn0 mx0 : Option PyNum)
    (discrete : Bool) (tolerance : ℚ) (nsim : ℕ) (rawDraw : ℕ → List ℚ) :
    Except PyErr (List ℚ × Bool × ℕ) :=
  if !num_trials.isInt then .error .assertionError
  else
    pyBind (uniformDerive dm0 mn0 mx0) (fun t =>
      pyBind (pyGT t.1 t.2.1) (fun g =>
        if !g then .error .assertionError
        else if discrete && pyTruthy t.2.1 && !(pyIsInt t.2.1) then .error .assertionError
        else if discrete && !(pyTruthy t.2.1) && pyTruthy t.2.2 && !(pyIsInt t.2.2) then
          .error .assertionError
        else
          match t.2.1, t.2.2 with
          | some _, some _ => searchLoop rawDraw (acceptUniform (pyVal t.1) tolerance) nsim 0
          | _, _ => .error .typeError))

/-
  Helper lemmas about the retry loop.
-/

/-- Inversion for exception sequencing: a normal result means the first
statement returned normally and the continuation did too. -/
theorem pyBind_ok {α β : Type} {e : Except PyErr α} {f : α → Except PyErr β} {b : β}
    (h : pyBind e f = .ok b) : ∃ a, e = .ok a ∧ f a = .ok b := by
  cases e with
  | error err => exact Except.noConfusion h
  | ok a => exact ⟨a, rfl, h⟩

/-- Inversion for a normally-returning run of the retry loop: the reported
attempt count is at most `i + fuel`, the returned sequence is the candidate
drawn at that attempt, the acceptance test of that candidate evaluated to the
returned convergence flag, and a non-converged return means the budget was
fully exhausted. -/
theorem searchLoop_ok_inv (draw : ℕ → List ℚ) (accept : List ℚ → Except PyErr Bool) :
    ∀ fuel i seq c j, searchLoop draw accept fuel i = .ok (seq, c, j) →
      j ≤ i + fuel ∧ seq = draw j ∧ accept seq = .ok c ∧ (c = false → j = i + fuel) := by
  intro fuel
  induction fuel with
  | zero =>
    intro i seq c j h
    unfold searchLoop at h
    revert h
    cases hacc : accept (draw i) with
    | error e => intro h; cases h
    | ok b =>
      intro h
      injection h with h
      injection h with h1 h
      injection h with h2 h3
      subst h1; subst h2; subst h3
      exact ⟨Nat.le_refl _, rfl, hacc, fun _ => rfl⟩
  | succ fuel ih =>
    intro i seq c j h
    unfold searchLoop at h
    revert h
    cases hacc : accept (draw i) with
    | error e => intro h; cases h
    | ok b =>
      cases b with
      | true =>
        intro h
        injection h with h
        injection h with h1 h
        injection h with h2 h3
        subst h1; subst h2; subst h3
        exact ⟨Nat.le_add_right _ _, rfl, hacc, fun hc => by cases hc⟩
      | false =>
        intro h
        have := ih (i + 1) seq c j h
        refine ⟨?_, this.2.1, this.2.2.1, ?_⟩
        · omega
        · intro hc
          have := this.2.2.2 hc
          omega

/-- If every candidate up to the budget is rejected, the retry loop
returns the final rejected candidate with `converged = false` and attempt
count `i + fuel` — it does not raise. -/
theorem searchLoop_exhausted (draw : ℕ → List ℚ) (accept : List ℚ → Except PyErr Bool) :
    ∀ fuel i, (∀ k, i ≤ k → k ≤ i + fuel → accept (draw k) = .ok false) →
      searchLoop draw accept fuel i = .ok (draw (i + fuel), false, i + fuel) := by
  intro fuel
  induction fuel with
  | zero =>
    intro i h
    unfold searchLoop
    rw [h i (Nat.le_refl _) (Nat.le_refl _)]
    simp
  | succ fuel ih =>
    intro i h
    unfold searchLoop
    rw [h i (Nat.le_refl _) (Nat.le_add_right _ _)]
    have := ih (i + 1) (fun k hk1 hk2 => h k (by omega) (by omega))
    rw [this]
    have harith : i + 1 + fuel = i + (fuel + 1) := by omega
    rw [harith]

/-
  Claim theorems.
-/

/-- C1: the claim states that every element returned by the skewed sampler
(`random_jitter`) is at least `min_value`, for discrete and continuous
alike.  The code contradicts its own docstring ("The min ITI is
guaranteed") in the continuous case: line 65 shifts draws by
`iti_min - 1`, and exponential draws can be any value `≥ 0`, so with
`iti_min = 1` and exponential draw `1/2` (a legal draw, `0 ≤ 1/2`) the
returned sequence is `[1/2]`, whose element is below the floor `1`. -/
theorem C1_skewed_floor_bug :
    random_jitter ⟨true, 1⟩ ⟨true, 6⟩ ⟨true, 1⟩ (some ⟨true, 100⟩) false (1/20) 0
        (fun _ => [1/2]) = .ok ([1/2], false, 0)
      ∧ (0 : ℚ) ≤ 1/2 ∧ (1/2 : ℚ) < 1 := by
  refine ⟨?_, by norm_num, by norm_num⟩
  simp [random_jitter, searchLoop, acceptJitter, allclose, seqMean, seqMax, jitterBound]
  norm_num [abs_of_nonneg, abs_of_nonpos]

/-- C7: the claim states that the generators raise `InvalidParameter`
synchronously, before any sampling, exactly when a precondition is
violated, and never otherwise.  The code violates this: a continuous call
with `iti_max = None` satisfies every precondition (`desired_mean = 6 >
1 = iti_min`, no integrality requirements when `discrete = false`), yet it
raises a `TypeError` during the sampling loop — and only on draws whose
mean passes the `allclose` test, so whether it raises depends on the
random draw, not on the parameters. -/
theorem C7_validation_bug :
    random_jitter ⟨true, 1⟩ ⟨true, 6⟩ ⟨true, 1⟩ none false (1/20) 0 (fun _ => [6])
        = .error .typeError
      ∧ random_jitter ⟨true, 1⟩ ⟨true, 6⟩ ⟨true, 1⟩ none false (1/20) 0 (fun _ => [1])
        = .ok ([1], false, 0) := by
  constructor
  · simp [random_jitter, searchLoop, acceptJitter, allclose, seqMean, seqMax, jitterBound]
    norm_num
  · simp [random_jitter, searchLoop, acceptJitter, allclose, seqMean, seqMax, jitterBound]
    norm_num

/-- C8: the claim states that for the skewed sampler with
`discrete = false` and `iti_max = None`, the max is treated as unbounded
and the call completes normally.  In the code the `else: iti_max = np.inf`
default (line 43) is nested under `if discrete:`, so a continuous call
leaves `iti_max = None` and the acceptance check `seq.max() <= iti_max`
compares a float with `None` — a `TypeError` (Python 3) — instead of
being vacuously satisfied: a draw meeting the mean criterion makes the
call raise rather than converge. -/
theorem C8_unbounded_max_bug :
    random_jitter ⟨true, 1⟩ ⟨true, 5⟩ ⟨true, 1⟩ none false (1/20) 2 (fun _ => [5])
      = .error .typeError := by
  simp [random_jitter, searchLoop, acceptJitter, allclose, seqMean, seqMax, jitterBound]
  norm_num

/-- C10: whether a parameter of the uniform generator counts as supplied
is decided by Python truthiness, not by `is not None`: supplying
`desired_mean = 6, iti_min = 0, iti_max = None` takes none of the three
derivation branches of lines 119–127 (the parameters pass through
unchanged), and the call then fails with a `TypeError` (from
`iti_max + 1` on `None` at the sampling step) instead of returning a
sequence — for either value of `discrete` and whatever the random draws
are. -/
theorem C10_truthiness_supplied :
    ∀ (d : Bool) (tol : ℚ) (nsim : ℕ) (raw : ℕ → List ℚ),
      uniformDerive (some ⟨true, 6⟩) (some ⟨true, 0⟩) none
          = .ok (some ⟨true, 6⟩, some ⟨true, 0⟩, none)
        ∧ random_uniform_jitter ⟨true, 1⟩ (some ⟨true, 6⟩) (some ⟨true, 0⟩) none d tol nsim raw
          = .error .typeError := by
  intro d tol nsim raw
  constructor
  · simp [uniformDerive, pyTruthy]
  · simp [random_uniform_jitter, uniformDerive, pyGT, pyBind, pyTruthy, pyIsInt]


/-- C2 counterexample: a run of the skewed sampler that converges although
the sample mean differs from `desired_mean` by more than `tolerance`:
`np.allclose` adds a relative slack `1e-5 * |desired_mean|` on top of
`atol = tolerance`, so with `desired_mean = 6`, `tolerance = 1/20`, a
continuous draw with mean `6 + 5003/100000` is accepted
(`5003/100000 ≤ 1/20 + 6/100000`), yet its distance to the desired mean
exceeds `1/20`. -/
theorem C2_counterexample :
    random_jitter ⟨true, 1⟩ ⟨true, 6⟩ ⟨true, 1⟩ (some ⟨true, 100⟩) false (1/20) 0
        (fun _ => [605003/100000]) = .ok ([605003/100000], true, 0)
      ∧ ¬(|seqMean [(605003 : ℚ)/100000] - 6| ≤ 1/20) := by
  constructor
  · have hacc : acceptJitter 6 ((20 : ℚ)⁻¹) (.numB 100) [605003/100000] = .ok true := by
      simp only [acceptJitter, allclose, seqMean, seqMax]
      norm_num [abs_of_nonneg, abs_of_nonpos]
    simp [random_jitter, searchLoop, jitterBound, pyIsInt, hacc]
  · simp [seqMean]
    norm_num [abs_of_nonneg, abs_of_nonpos]

/-- C2 amended: when a run of either generator reports `converged = true`,
the sample mean is within `tolerance + (1/100000) * |desired_mean|` of the
(possibly derived) `desired_mean` — the `np.allclose` criterion with the
numpy default `rtol = 1e-5`, rather than within plain `tolerance` as the
claim states — and for the skewed sampler the sample maximum does not
exceed `max_value` whenever a max was given. -/
theorem C2_mean_convergence_amended :
    (∀ (nt dm mn : PyNum) (mx : Option PyNum) (d : Bool) (tol : ℚ) (nsim : ℕ)
        (raw : ℕ → List ℚ) (seq : List ℚ) (c : Bool) (i : ℕ),
        random_jitter nt dm mn mx d tol nsim raw = .ok (seq, c, i) → c = true →
          |seqMean seq - dm.val| ≤ tol + (1/100000) * |dm.val|)
    ∧ (∀ (nt dm mn mxq : PyNum) (d : Bool) (tol : ℚ) (nsim : ℕ)
        (raw : ℕ → List ℚ) (seq : List ℚ) (c : Bool) (i : ℕ),
        random_jitter nt dm mn (some mxq) d tol nsim raw = .ok (seq, c, i) → c = true →
          seqMax seq ≤ mxq.val)
    ∧ (∀ (nt : PyNum) (dm0 mn0 mx0 : Option PyNum) (d : Bool) (tol : ℚ) (nsim : ℕ)
        (raw : ℕ → List ℚ) (seq : List ℚ) (c : Bool) (i : ℕ)
        (dmE mnE mxE : Option PyNum),
        uniformDerive dm0 mn0 mx0 = .ok (dmE, mnE, mxE) →
        random_uniform_jitter nt dm0 mn0 mx0 d tol nsim raw = .ok (seq, c, i) → c = true →
          |seqMean seq - pyVal dmE| ≤ tol + (1/100000) * |pyVal dmE|) := by
  refine ⟨?_, ?_, ?_⟩
  · intro nt dm mn mx d tol nsim raw seq c i h hc
    subst hc
    rw [random_jitter] at h
    split_ifs at h
    obtain ⟨-, hseq, hacc, -⟩ := searchLoop_ok_inv _ _ _ _ _ _ _ h
    simp only [acceptJitter] at hacc
    split_ifs at hacc with hall
    · rw [allclose] at hall
      exact of_decide_eq_true hall
    · simp at hacc
  · intro nt dm mn mxq d tol nsim raw seq c i h hc
    subst hc
    rw [random_jitter] at h
    split_ifs at h
    obtain ⟨-, hseq, hacc, -⟩ := searchLoop_ok_inv _ _ _ _ _ _ _ h
    simp only [acceptJitter, jitterBound] at hacc
    split_ifs at hacc with hall
    · simp at hacc
      exact hacc
    · simp at hacc
  · intro nt dm0 mn0 mx0 d tol nsim raw seq c i dmE mnE mxE hderive h hc
    subst hc
    rw [random_uniform_jitter] at h
    split_ifs at h
    obtain ⟨t, ht, h⟩ := pyBind_ok h
    rw [hderive] at ht
    injection ht with ht
    subst ht
    try simp only [] at h
    obtain ⟨g, hg, h⟩ := pyBind_ok h
    try simp only [] at h
    split_ifs at h
    revert h
    cases mnE with
    | none => intro h; exact Except.noConfusion h
    | some a =>
      cases mxE with
      | none => intro h; exact Except.noConfusion h
      | some b =>
        intro h
        obtain ⟨-, hseq, hacc, -⟩ := searchLoop_ok_inv _ _ _ _ _ _ _ h
        simp only [acceptUniform] at hacc
        simp at hacc
        rw [allclose] at hacc
        exact of_decide_eq_true hacc

/-- C2 witness: a concrete converged run of the skewed sampler; by the
amended theorem its mean meets the `allclose` bound. -/
theorem C2_witness :
    random_jitter ⟨true, 1⟩ ⟨true, 6⟩ ⟨true, 1⟩ (some ⟨true, 10⟩) true (1/20) 0
        (fun _ => [6]) = .ok ([6], true, 0)
      ∧ |seqMean [(6 : ℚ)] - 6| ≤ 1/20 + (1/100000) * |(6 : ℚ)| := by
  have h : random_jitter ⟨true, 1⟩ ⟨true, 6⟩ ⟨true, 1⟩ (some ⟨true, 10⟩) true (1/20) 0
      (fun _ => [6]) = .ok ([6], true, 0) := by
    have hacc : acceptJitter 6 ((20 : ℚ)⁻¹) (.numB 10) [6] = .ok true := by
      simp only [acceptJitter, allclose, seqMean, seqMax]
      norm_num
    simp [random_jitter, searchLoop, jitterBound, pyIsInt, hacc]
  exact ⟨h, C2_mean_convergence_amended.1 ⟨true, 1⟩ ⟨true, 6⟩ ⟨true, 1⟩ (some ⟨true, 10⟩)
    true (1/20) 0 (fun _ => [6]) [6] true 0 h rfl⟩



/-- Helper: a normally-returning run of the uniform generator returns one
of the candidate sequences of the oracle unchanged (no shifting or clipping is
applied to uniform draws). -/
theorem uniform_ok_seq_is_draw (nt : PyNum) (dm0 mn0 mx0 : Option PyNum) (d : Bool)
    (tol : ℚ) (nsim : ℕ) (raw : ℕ → List ℚ) (seq : List ℚ) (c : Bool) (i : ℕ)
    (h : random_uniform_jitter nt dm0 mn0 mx0 d tol nsim raw = .ok (seq, c, i)) :
    seq = raw i := by
  rw [random_uniform_jitter] at h
  split_ifs at h
  obtain ⟨t, ht, h⟩ := pyBind_ok h
  try simp only [] at h
  obtain ⟨g, hg, h⟩ := pyBind_ok h
  try simp only [] at h
  split_ifs at h
  revert h
  match t, ht with
  | (dmE, mnE, mxE), ht =>
    cases mnE with
    | none => intro h; exact Except.noConfusion h
    | some a =>
      cases mxE with
      | none => intro h; exact Except.noConfusion h
      | some b =>
        intro h
        obtain ⟨-, hseq, -, -⟩ := searchLoop_ok_inv _ _ _ _ _ _ _ h
        exact hseq

/-- C3 counterexample: a continuous uniform run whose returned sequence
contains an element strictly above `max_value`.  With `desired_mean = 6`
and `min_value = 2` the derived `max_value` is `10`, but the continuous
sampler draws from `[min, max + 1e-12)` (`np.random.uniform(iti_min,
iti_max + .000000000001)`), so the legal draw `10 + 1/2000000000000`
(inside the sampling support, as the last two conjuncts show) is returned
and exceeds `10`. -/
theorem C3_counterexample :
    random_uniform_jitter ⟨true, 1⟩ (some ⟨true, 6⟩) (some ⟨true, 2⟩) none false (1/20) 0
        (fun _ => [20000000000001/2000000000000])
        = .ok ([20000000000001/2000000000000], false, 0)
      ∧ uniformDerive (some ⟨true, 6⟩) (some ⟨true, 2⟩) none
        = .ok (some ⟨true, 6⟩, some ⟨true, 2⟩, some ⟨true, 10⟩)
      ∧ (2 : ℚ) ≤ 20000000000001/2000000000000
      ∧ (20000000000001 : ℚ)/2000000000000 < 10 + 1/1000000000000
      ∧ (10 : ℚ) < 20000000000001/2000000000000 := by
  refine ⟨?_, ?_, by norm_num, by norm_num, by norm_num⟩
  · have hacc : acceptUniform 6 ((20 : ℚ)⁻¹) [20000000000001/2000000000000] = .ok false := by
      simp only [acceptUniform, allclose, seqMean]
      norm_num [abs_of_nonneg, abs_of_nonpos]
    simp [random_uniform_jitter, uniformDerive, pyBind, pyGT, pyTruthy, pyIsInt, pyVal,
      searchLoop, hacc]
    all_goals norm_num
  · simp [uniformDerive, pyTruthy, pyIsInt, pyVal]
    norm_num

/-- C3 amended: every element of a sequence returned by the uniform
generator is one of the raw uniform draws, so for `discrete = true` every
element lies in `[min_value, max_value]` (the support of
`np.random.randint(min, max+1)`), while for `discrete = false` elements
lie in `[min_value, max_value + 1e-12)` — the upper bound can be exceeded
by up to the hard-coded epsilon `1e-12`, as the counterexample shows. -/
theorem C3_uniform_bounds_amended :
    (∀ (nt : PyNum) (dm0 mn0 mx0 : Option PyNum) (tol : ℚ) (nsim : ℕ)
        (raw : ℕ → List ℚ) (seq : List ℚ) (c : Bool) (i : ℕ)
        (dmE : Option PyNum) (mnE mxE : PyNum),
        uniformDerive dm0 mn0 mx0 = .ok (dmE, some mnE, some mxE) →
        (∀ k x, x ∈ raw k → mnE.val ≤ x ∧ x ≤ mxE.val) →
        random_uniform_jitter nt dm0 mn0 mx0 true tol nsim raw = .ok (seq, c, i) →
        ∀ x, x ∈ seq → mnE.val ≤ x ∧ x ≤ mxE.val)
    ∧ (∀ (nt : PyNum) (dm0 mn0 mx0 : Option PyNum) (tol : ℚ) (nsim : ℕ)
        (raw : ℕ → List ℚ) (seq : List ℚ) (c : Bool) (i : ℕ)
        (dmE : Option PyNum) (mnE mxE : PyNum),
        uniformDerive dm0 mn0 mx0 = .ok (dmE, some mnE, some mxE) →
        (∀ k x, x ∈ raw k → mnE.val ≤ x ∧ x < mxE.val + 1/1000000000000) →
        random_uniform_jitter nt dm0 mn0 mx0 false tol nsim raw = .ok (seq, c, i) →
        ∀ x, x ∈ seq → mnE.val ≤ x ∧ x < mxE.val + 1/1000000000000) := by
  constructor
  · intro nt dm0 mn0 mx0 tol nsim raw seq c i dmE mnE mxE hderive hsupp h x hx
    have hseq := uniform_ok_seq_is_draw _ _ _ _ _ _ _ _ _ _ _ h
    subst hseq
    exact hsupp i x hx
  · intro nt dm0 mn0 mx0 tol nsim raw seq c i dmE mnE mxE hderive hsupp h x hx
    have hseq := uniform_ok_seq_is_draw _ _ _ _ _ _ _ _ _ _ _ h
    subst hseq
    exact hsupp i x hx

/-- C3 witness: a concrete discrete uniform run with derived bounds
`[2, 10]`; by the amended theorem its element `6` lies within them. -/
theorem C3_witness :
    random_uniform_jitter ⟨true, 1⟩ (some ⟨true, 6⟩) (some ⟨true, 2⟩) none true (1/20) 0
        (fun _ => [6]) = .ok ([6], true, 0)
      ∧ ((2 : ℚ) ≤ 6 ∧ (6 : ℚ) ≤ 10) := by
  have h : random_uniform_jitter ⟨true, 1⟩ (some ⟨true, 6⟩) (some ⟨true, 2⟩) none true (1/20) 0
      (fun _ => [6]) = .ok ([6], true, 0) := by
    have hacc : acceptUniform 6 ((20 : ℚ)⁻¹) [6] = .ok true := by
      simp only [acceptUniform, allclose, seqMean]
      norm_num
    simp [random_uniform_jitter, uniformDerive, pyBind, pyGT, pyTruthy, pyIsInt, pyVal,
      searchLoop, hacc]
    all_goals norm_num
  refine ⟨h, ?_⟩
  refine C3_uniform_bounds_amended.1 ⟨true, 1⟩ (some ⟨true, 6⟩) (some ⟨true, 2⟩) none
    (1/20) 0 (fun _ => [6]) [6] true 0 (some ⟨true, 6⟩) ⟨true, 2⟩ ⟨true, 10⟩ ?_ ?_ h 6 ?_
  · simp [uniformDerive, pyTruthy, pyIsInt, pyVal]
    norm_num
  · intro k x hx
    simp at hx
    subst hx
    constructor <;> norm_num
  · simp



/-- C4 counterexample: exactly two of the three parameters are supplied
(non-null) — `desired_mean = 5` and `min_value = 0` — yet no derivation
takes place (the parameters pass through `uniformDerive` unchanged,
because the branch guards test truthiness and `0` is falsy), and the call
fails with a `TypeError` instead of deriving `max_value = 2*5 - 0 = 10`
and sampling. -/
theorem C4_counterexample :
    uniformDerive (some ⟨true, 5⟩) (some ⟨true, 0⟩) none
        = .ok (some ⟨true, 5⟩, some ⟨true, 0⟩, none)
      ∧ random_uniform_jitter ⟨true, 1⟩ (some ⟨true, 5⟩) (some ⟨true, 0⟩) none true (1/20) 0
          (fun _ => [0]) = .error .typeError := by
  constructor
  · simp [uniformDerive, pyTruthy]
  · simp [random_uniform_jitter, uniformDerive, pyBind, pyGT, pyTruthy, pyIsInt]

/-- C4 amended: when exactly two of the three parameters are supplied
with nonzero (truthy) values, the third is derived from the identity
`mean = (min + max) / 2`: given mean and min the derived max is
`2*mean - min`, given mean and max the derived min is `2*mean - max`, and
given min and max the derived mean is `(min + max)/2` (always a Python
float). -/
theorem C4_derivation_amended :
    (∀ (dm mn : PyNum), dm.val ≠ 0 → mn.val ≠ 0 →
        uniformDerive (some dm) (some mn) none
          = .ok (some dm, some mn, some ⟨dm.isInt && mn.isInt, 2 * dm.val - mn.val⟩))
    ∧ (∀ (dm mx : PyNum), dm.val ≠ 0 → mx.val ≠ 0 →
        uniformDerive (some dm) none (some mx)
          = .ok (some dm, some ⟨dm.isInt && mx.isInt, 2 * dm.val - mx.val⟩, some mx))
    ∧ (∀ (mn mx : PyNum), mn.val ≠ 0 → mx.val ≠ 0 →
        uniformDerive none (some mn) (some mx)
          = .ok (some ⟨false, (mn.val + mx.val) / 2⟩, some mn, some mx)) := by
  refine ⟨?_, ?_, ?_⟩ <;>
    (intro a b ha hb; simp [uniformDerive, pyTruthy, pyIsInt, pyVal, ha, hb])

/-- C4 witness: the two concrete instances named by the claim — supplying
`desired_mean = 6, min_value = 2` derives `max_value = 10`, and supplying
`min_value = 2, max_value = 10` derives `desired_mean = 6`. -/
theorem C4_witness :
    uniformDerive (some ⟨true, 6⟩) (some ⟨true, 2⟩) none
        = .ok (some ⟨true, 6⟩, some ⟨true, 2⟩, some ⟨true && true, 2 * 6 - 2⟩)
      ∧ uniformDerive none (some ⟨true, 2⟩) (some ⟨true, 10⟩)
        = .ok (some ⟨false, ((2 : ℚ) + 10) / 2⟩, some ⟨true, 2⟩, some ⟨true, 10⟩) := by
  exact ⟨C4_derivation_amended.1 ⟨true, 6⟩ ⟨true, 2⟩ (by norm_num) (by norm_num),
    C4_derivation_amended.2.2 ⟨true, 2⟩ ⟨true, 10⟩ (by norm_num) (by norm_num)⟩

/-- C5 counterexample: a call of the uniform generator with all three of
`desired_mean, min_value, max_value` supplied (non-null: `6, 0, 0`) that
does not fail with `InvalidParameter` — the zero values are falsy, so no
derivation branch (and no arity assert) fires, `6 > 0` passes, and
`np.random.randint(0, 1)` sampling proceeds, returning the all-zero,
non-converged sequence. -/
theorem C5_counterexample :
    random_uniform_jitter ⟨true, 1⟩ (some ⟨true, 6⟩) (some ⟨true, 0⟩) (some ⟨true, 0⟩) true
        (1/20) 1 (fun _ => [0]) = .ok ([0], false, 1) := by
  have hacc : acceptUniform 6 ((20 : ℚ)⁻¹) [0] = .ok false := by
    simp only [acceptUniform, allclose, seqMean]
    norm_num [abs_of_nonneg, abs_of_nonpos]
  simp [random_uniform_jitter, uniformDerive, pyBind, pyGT, pyTruthy, pyIsInt, pyVal,
    searchLoop, hacc]

/-- C5 amended: supplying all three parameters with nonzero values fails
with `InvalidParameter` (the arity assert of the first derivation branch),
while supplying fewer than two parameters fails with a `TypeError` (the
`desired_mean > iti_min` comparison meets a `None`), not with
`InvalidParameter`; in both cases no sequence is produced. -/
theorem C5_arity_errors_amended :
    (∀ (nt dm mn mx : PyNum) (d : Bool) (tol : ℚ) (nsim : ℕ) (raw : ℕ → List ℚ),
        nt.isInt = true → dm.val ≠ 0 → mn.val ≠ 0 → mx.val ≠ 0 →
        random_uniform_jitter nt (some dm) (some mn) (some mx) d tol nsim raw
          = .error .assertionError)
    ∧ (∀ (nt : PyNum) (d : Bool) (tol : ℚ) (nsim : ℕ) (raw : ℕ → List ℚ),
        nt.isInt = true →
        random_uniform_jitter nt none none none d tol nsim raw = .error .typeError)
    ∧ (∀ (nt dm : PyNum) (d : Bool) (tol : ℚ) (nsim : ℕ) (raw : ℕ → List ℚ),
        nt.isInt = true →
        random_uniform_jitter nt (some dm) none none d tol nsim raw = .error .typeError)
    ∧ (∀ (nt mn : PyNum) (d : Bool) (tol : ℚ) (nsim : ℕ) (raw : ℕ → List ℚ),
        nt.isInt = true →
        random_uniform_jitter nt none (some mn) none d tol nsim raw = .error .typeError)
    ∧ (∀ (nt mx : PyNum) (d : Bool) (tol : ℚ) (nsim : ℕ) (raw : ℕ → List ℚ),
        nt.isInt = true →
        random_uniform_jitter nt none none (some mx) d tol nsim raw = .error .typeError) := by
  refine ⟨?_, ?_, ?_, ?_, ?_⟩
  · intro nt dm mn mx d tol nsim raw hnt ha hb hc
    simp [random_uniform_jitter, uniformDerive, pyBind, pyGT, pyTruthy, hnt, ha, hb, hc]
  · intro nt d tol nsim raw hnt
    simp [random_uniform_jitter, uniformDerive, pyBind, pyGT, pyTruthy, hnt]
  · intro nt dm d tol nsim raw hnt
    simp [random_uniform_jitter, uniformDerive, pyBind, pyGT, pyTruthy, hnt]
  · intro nt mn d tol nsim raw hnt
    simp [random_uniform_jitter, uniformDerive, pyBind, pyGT, pyTruthy, hnt]
  · intro nt mx d tol nsim raw hnt
    simp [random_uniform_jitter, uniformDerive, pyBind, pyGT, pyTruthy, hnt]

/-- C5 witness: concrete instances of the amended claim — all three of
`6, 2, 10` supplied fails with the assertion, and supplying only
`desired_mean = 6` fails with a `TypeError`. -/
theorem C5_witness :
    random_uniform_jitter ⟨true, 1⟩ (some ⟨true, 6⟩) (some ⟨true, 2⟩) (some ⟨true, 10⟩) true
        (1/20) 0 (fun _ => [6]) = .error .assertionError
      ∧ random_uniform_jitter ⟨true, 1⟩ (some ⟨true, 6⟩) none none true (1/20) 0
        (fun _ => [6]) = .error .typeError := by
  exact ⟨C5_arity_errors_amended.1 ⟨true, 1⟩ ⟨true, 6⟩ ⟨true, 2⟩ ⟨true, 10⟩ true (1/20) 0
      (fun _ => [6]) rfl (by norm_num) (by norm_num) (by norm_num),
    C5_arity_errors_amended.2.2.1 ⟨true, 1⟩ ⟨true, 6⟩ true (1/20) 0 (fun _ => [6]) rfl⟩



/-- C6: the retry loop of both generators performs at most `nsim`
(`max_attempts`) redraws beyond the initial draw, so a normally-returning
run reports an attempt count `i ≤ nsim`; a non-converged return means the
budget was exhausted at attempt `nsim` with the final (rejected) candidate
returned; and whenever every candidate up to the budget is rejected the
generators return that final candidate with `converged = false` instead of
raising. -/
theorem C6_attempt_bound :
    (∀ (nt dm mn : PyNum) (mx : Option PyNum) (d : Bool) (tol : ℚ) (nsim : ℕ)
        (raw : ℕ → List ℚ) (seq : List ℚ) (c : Bool) (i : ℕ),
        random_jitter nt dm mn mx d tol nsim raw = .ok (seq, c, i) →
          i ≤ nsim ∧ (c = false → i = nsim
            ∧ seq = (raw nsim).map (fun x => x + (mn.val - 1))
            ∧ acceptJitter dm.val tol (jitterBound d mx) seq = .ok false))
    ∧ (∀ (nt : PyNum) (dm0 mn0 mx0 : Option PyNum) (d : Bool) (tol : ℚ) (nsim : ℕ)
        (raw : ℕ → List ℚ) (seq : List ℚ) (c : Bool) (i : ℕ),
        random_uniform_jitter nt dm0 mn0 mx0 d tol nsim raw = .ok (seq, c, i) →
          i ≤ nsim ∧ (c = false → i = nsim ∧ seq = raw nsim))
    ∧ (∀ (nt dm mn : PyNum) (mx : Option PyNum) (d : Bool) (tol : ℚ) (nsim : ℕ)
        (raw : ℕ → List ℚ),
        nt.isInt = true → dm.val > mn.val →
        (d = true → mn.isInt = true) → (d = true → pyIsInt mx = true) →
        (∀ k, k ≤ nsim →
          acceptJitter dm.val tol (jitterBound d mx)
            ((raw k).map (fun x => x + (mn.val - 1))) = .ok false) →
        random_jitter nt dm mn mx d tol nsim raw
          = .ok ((raw nsim).map (fun x => x + (mn.val - 1)), false, nsim))
    ∧ (∀ (nt : PyNum) (dm0 mn0 mx0 : Option PyNum) (d : Bool) (tol : ℚ) (nsim : ℕ)
        (raw : ℕ → List ℚ) (dmv mnE mxE : PyNum),
        nt.isInt = true →
        uniformDerive dm0 mn0 mx0 = .ok (some dmv, some mnE, some mxE) →
        dmv.val > mnE.val →
        (d && pyTruthy (some mnE) && !(pyIsInt (some mnE))) = false →
        (d && !(pyTruthy (some mnE)) && pyTruthy (some mxE) && !(pyIsInt (some mxE))) = false →
        (∀ k, k ≤ nsim → acceptUniform dmv.val tol (raw k) = .ok false) →
        random_uniform_jitter nt dm0 mn0 mx0 d tol nsim raw
          = .ok (raw nsim, false, nsim)) := by
  refine ⟨?_, ?_, ?_, ?_⟩
  · intro nt dm mn mx d tol nsim raw seq c i h
    rw [random_jitter] at h
    split_ifs at h
    obtain ⟨hle, hseq, hacc, hfin⟩ := searchLoop_ok_inv _ _ _ _ _ _ _ h
    refine ⟨by omega, fun hc => ?_⟩
    subst hc
    have hi := hfin rfl
    refine ⟨by omega, ?_, hacc⟩
    rw [hseq, hi, Nat.zero_add]
  · intro nt dm0 mn0 mx0 d tol nsim raw seq c i h
    rw [random_uniform_jitter] at h
    split_ifs at h
    obtain ⟨t, ht, h⟩ := pyBind_ok h
    try simp only [] at h
    obtain ⟨g, hg, h⟩ := pyBind_ok h
    try simp only [] at h
    split_ifs at h
    revert h
    match t, ht with
    | (dmE, mnE, mxE), ht =>
      cases mnE with
      | none => intro h; exact Except.noConfusion h
      | some a =>
        cases mxE with
        | none => intro h; exact Except.noConfusion h
        | some b =>
          intro h
          obtain ⟨hle, hseq, hacc, hfin⟩ := searchLoop_ok_inv _ _ _ _ _ _ _ h
          refine ⟨by omega, fun hc => ?_⟩
          subst hc
          have hi := hfin rfl
          refine ⟨by omega, ?_⟩
          rw [hseq, hi, Nat.zero_add]
  · intro nt dm mn mx d tol nsim raw hnt hdm hd1 hd2 hrej
    have g1 : (!nt.isInt) = false := by rw [hnt]; rfl
    have g2 : (!(decide (dm.val > mn.val))) = false := by
      rw [decide_eq_true hdm]
      rfl
    have g3 : (d && !mn.isInt) = false := by
      cases d with
      | false => rfl
      | true => rw [hd1 rfl]; rfl
    have g4 : (d && !(pyIsInt mx)) = false := by
      cases d with
      | false => rfl
      | true => rw [hd2 rfl]; rfl
    rw [random_jitter, g1, g2, g3, g4]
    simp only [Bool.false_eq_true, if_false]
    have h := searchLoop_exhausted (fun k => (raw k).map (fun x => x + (mn.val - 1)))
      (acceptJitter dm.val tol (jitterBound d mx)) nsim 0
      (fun k hk1 hk2 => hrej k (by omega))
    rw [h, Nat.zero_add]
  · intro nt dm0 mn0 mx0 d tol nsim raw dmv mnE mxE hnt hderive hdm hg3 hg4 hrej
    have g1 : (!nt.isInt) = false := by rw [hnt]; rfl
    rw [random_uniform_jitter, g1]
    simp only [Bool.false_eq_true, if_false]
    rw [hderive]
    simp only [pyBind, pyGT]
    rw [decide_eq_true hdm]
    simp only [Bool.not_true, Bool.false_eq_true, if_false]
    rw [hg3, hg4]
    simp only [Bool.false_eq_true, if_false, pyVal]
    have h := searchLoop_exhausted raw (acceptUniform dmv.val tol) nsim 0
      (fun k hk1 hk2 => hrej k (by omega))
    rw [h, Nat.zero_add]

/-- C6 witness: a concrete exhausted run of the skewed sampler — every
candidate is rejected, the call still returns the final rejected candidate
with `converged = false` and attempt count `nsim = 1`. -/
theorem C6_witness :
    random_jitter ⟨true, 1⟩ ⟨true, 6⟩ ⟨true, 1⟩ none true (1/20) 1 (fun _ => [1])
      = .ok (([(1 : ℚ)]).map (fun x => x + (((⟨true, 1⟩ : PyNum)).val - 1)), false, 1) := by
  refine C6_attempt_bound.2.2.1 ⟨true, 1⟩ ⟨true, 6⟩ ⟨true, 1⟩ none true (1/20) 1
    (fun _ => [1]) rfl (by norm_num) (fun _ => rfl) (fun _ => rfl) ?_
  intro k hk
  simp only [acceptJitter, jitterBound, allclose, seqMean, seqMax]
  norm_num



/-
  The shutdown routine `clean_up` of `presentation.py`, modelled as the
  sequence of observable `close()` / `quit()` events it performs.
-/

/-- Observable events of `clean_up`: closing each kind of resource and
terminating the process (`core.quit()`). -/
inductive CleanEvent where
  | closeWin (w : String)
  | closeFile (f : String)
  | closeSerial (s : String)
  | closeLabjack (l : String)
  | quit
deriving DecidableEq, Repr

/-- The `data_files` argument of `clean_up`: absent (`None`), a single
file handle, or a list of file handles. -/
inductive PyFiles where
  | noneF
  | single (f : String)
  | listF (fs : List String)
deriving DecidableEq, Repr

/-- Python truthiness of `data_files` (`if data_files:` on line 45 of
`presentation.py`): `None` is falsy, a file object is truthy, a list is
truthy iff non-empty. -/
def filesTruthy : PyFiles → Bool
  | .noneF => false
  | .single _ => true
  | .listF fs => !fs.isEmpty

/-- The `isinstance(data_files, list)` normalisation of `clean_up`
(lines 46–47 of `presentation.py`): a non-list argument is wrapped in a
singleton list. -/
def asFileList : PyFiles → List String
  | .noneF => []
  | .single f => [f]
  | .listF fs => fs

/-- The function `clean_up` (lines 9–55 of `presentation.py`): close the window, then
— if `data_files` is truthy — each data file after list normalisation,
then the serial device if supplied, then the labjack device if supplied,
then `core.quit()`. -/
def clean_up (window : String) (serial labjack : Option String) (data_files : PyFiles) :
    List CleanEvent :=
  [CleanEvent.closeWin window]
  ++ (if filesTruthy data_files then (asFileList data_files).map CleanEvent.closeFile else [])
  ++ (match serial with
      | some s => [CleanEvent.closeSerial s]
      | none => [])
  ++ (match labjack with
      | some l => [CleanEvent.closeLabjack l]
      | none => [])
  ++ [CleanEvent.quit]

/-- Modelled from the spec (section 6 of the specification): close all
supplied resources in the fixed order — display surface, then file
handles, then serial device, then secondary (labjack) device — then
terminate the process; resources that are not supplied are skipped. -/
def cleanUpSpec (window : String) (serial labjack : Option String) (data_files : PyFiles) :
    List CleanEvent :=
  [CleanEvent.closeWin window]
  ++ (asFileList data_files).map CleanEvent.closeFile
  ++ (serial.map CleanEvent.closeSerial).toList
  ++ (labjack.map CleanEvent.closeLabjack).toList
  ++ [CleanEvent.quit]

/-- C9: `clean_up` closes exactly the supplied resources in the fixed
order window, data files, serial, labjack, and terminates last; an
unsupplied resource is skipped (its close event never occurs) without
being an error.  The first conjunct is the refinement against the
spec-side description; the membership equivalences make "exactly the
supplied resources" explicit; the last conjunct shows the process is
terminated after all closings. -/
theorem C9_clean_up_order :
    ∀ (w : String) (s l : Option String) (fs : PyFiles),
      clean_up w s l fs = cleanUpSpec w s l fs
      ∧ (∀ x, CleanEvent.closeSerial x ∈ clean_up w s l fs ↔ s = some x)
      ∧ (∀ x, CleanEvent.closeLabjack x ∈ clean_up w s l fs ↔ l = some x)
      ∧ (∀ f, CleanEvent.closeFile f ∈ clean_up w s l fs ↔ f ∈ asFileList fs)
      ∧ (∀ x, CleanEvent.closeWin x ∈ clean_up w s l fs ↔ x = w)
      ∧ clean_up w s l fs = (clean_up w s l fs).dropLast ++ [CleanEvent.quit] := by
  intro w s l fs
  have hfiles : (if filesTruthy fs then (asFileList fs).map CleanEvent.closeFile else [])
      = (asFileList fs).map CleanEvent.closeFile := by
    cases fs with
    | noneF => rfl
    | single f => rfl
    | listF xs =>
      cases xs with
      | nil => rfl
      | cons x xs => rfl
  have heq : clean_up w s l fs = cleanUpSpec w s l fs := by
    rw [clean_up.eq_def, cleanUpSpec, hfiles]
    cases s <;> cases l <;> rfl
  refine ⟨heq, ?_, ?_, ?_, ?_, ?_⟩
  · intro x
    rw [heq, cleanUpSpec]
    cases s <;> cases l <;> simp [List.mem_append, eq_comm]
  · intro x
    rw [heq, cleanUpSpec]
    cases s <;> cases l <;> simp [List.mem_append, eq_comm]
  · intro f
    rw [heq, cleanUpSpec]
    cases s <;> cases l <;> simp [List.mem_append]
  · intro x
    rw [heq, cleanUpSpec]
    cases s <;> cases l <;> simp [List.mem_append]
  · rw [heq, cleanUpSpec]
    rw [List.dropLast_concat]

end PsychopyTools
